import Mathlib

/-!
Verification development for the expressure observability core: the logging
facade (src/libs/logger.lib, given as unnamed part_012), the pino-http
request-logging middleware (src/app/middlewares, expressLogger section), and
the request context store.  JavaScript runtime values are shallowly embedded
as the inductive JSVal; functions below mirror the TypeScript source
line by line, including its truthiness tests and object spread semantics.
-/

namespace Expressure

/-- Shallow embedding of the JavaScript values the logging core handles:
strings, numbers, booleans, null, undefined, arrays, plain objects (ordered
own-enumerable fields), and Error objects (name and message; the stack is
not modelled). -/
inductive JSVal : Type where
  | vStr : String → JSVal
  | vNum : Int → JSVal
  | vBool : Bool → JSVal
  | vNull : JSVal
  | vUndefined : JSVal
  | vArr : List JSVal → JSVal
  | vObj : List (String × JSVal) → JSVal
  | vErr : String → String → JSVal

/-- JavaScript truthiness: empty string, zero, false, null and undefined are
falsy; every object (arrays and errors included) is truthy. -/
def truthy : JSVal → Bool
  | .vStr s => !s.isEmpty
  | .vNum n => n != 0
  | .vBool b => b
  | .vNull => false
  | .vUndefined => false
  | .vArr _ => true
  | .vObj _ => true
  | .vErr _ _ => true

/-- Test for the JavaScript null value. -/
def isNull : JSVal → Bool
  | .vNull => true
  | _ => false

/-- Test mirroring typeof v === "object" (true for null, arrays, plain
objects and errors). -/
def typeofIsObject : JSVal → Bool
  | .vNull => true
  | .vArr _ => true
  | .vObj _ => true
  | .vErr _ _ => true
  | _ => false

/-- Test mirroring Array.isArray. -/
def isArray : JSVal → Bool
  | .vArr _ => true
  | _ => false

/-- Test mirroring typeof v === "string". -/
def isStringV : JSVal → Bool
  | .vStr _ => true
  | _ => false

/-- Underlying string of a string value (unused default for other values). -/
def strVal : JSVal → String
  | .vStr s => s
  | _ => ""

/-- Field lookup on an object field list; undefined when the key is absent. -/
def objGet (fields : List (String × JSVal)) (k : String) : JSVal :=
  match fields.find? (fun p => p.1 == k) with
  | some p => p.2
  | none => .vUndefined

/-- Key-presence test on an object field list. -/
def objHasKey (fields : List (String × JSVal)) (k : String) : Bool :=
  fields.any (fun p => p.1 == k)

/-- Property write used to model object spread: an existing key is
overwritten in place, a new key is appended. -/
def objInsert (fields : List (String × JSVal)) (k : String) (v : JSVal) :
    List (String × JSVal) :=
  if objHasKey fields k then fields.map (fun p => if p.1 == k then (k, v) else p)
  else fields ++ [(k, v)]

/-- Spread merge of two objects, the second overriding the first on key
collision, as in a JavaScript spread of a then b. -/
def objMerge (a b : List (String × JSVal)) : List (String × JSVal) :=
  b.foldl (fun acc p => objInsert acc p.1 p.2) a

/-- Removal of a set of keys from an object field list, as performed by a
rest pattern in destructuring. -/
def objRemove (fields : List (String × JSVal)) (ks : List String) :
    List (String × JSVal) :=
  fields.filter (fun p => !(ks.contains p.1))

/-- Own enumerable properties of a value, as collected by object spread:
the fields of a plain object, the indexed elements of an array, nothing for
primitives and errors (error message and stack are non-enumerable). -/
def ownEnumProps : JSVal → List (String × JSVal)
  | .vObj f => f
  | .vArr xs => xs.enum.map (fun p => (toString p.1, p.2))
  | _ => []

/-- Property read as performed by destructuring (reads non-enumerable and
inherited properties too, hence the message and name of an error). -/
def propGet : JSVal → String → JSVal
  | .vObj f, k => objGet f k
  | .vErr name msg, k =>
      if k == "message" then .vStr msg
      else if k == "name" then .vStr name
      else .vUndefined
  | _, _ => .vUndefined

/-- Rest part of destructuring a value against a pattern that consumes the
given keys: own enumerable properties minus those keys. -/
def restProps : JSVal → List String → List (String × JSVal)
  | .vObj f, ks => objRemove f ks
  | .vArr xs, _ => xs.enum.map (fun p => (toString p.1, p.2))
  | _, _ => []

/-- Template-literal stringification for the scalar values that can appear
as a Content-Length header (string or number); the remaining cases are
placeholders that no modelled code path reaches. -/
def jsToString : JSVal → String
  | .vStr s => s
  | .vNum n => toString n
  | .vBool b => cond b "true" "false"
  | .vNull => "null"
  | .vUndefined => "undefined"
  | .vArr _ => ""
  | .vObj _ => "[object Object]"
  | .vErr name msg => name ++ ": " ++ msg

/-! Structured logger (unnamed part_012, logger.lib). -/

/-- Shape of one call into the underlying pino logger: a bare message,
a merge object plus message, or a merge object alone. -/
inductive PinoCall : Type where
  | messageOnly : String → PinoCall
  | objAndMsg : JSVal → String → PinoCall
  | objOnly : JSVal → PinoCall

/-- Embedding of createLogHandler from logger.lib.  A string first argument
is logged directly, with the second argument prepended when truthy.  Any
other first argument is destructured as message, data and rest; data is
spread under rest when it is a non-null non-array object; the message is
used when it is a truthy string.  Destructuring null or undefined raises a
TypeError, modelled as the error branch. -/
def createLogHandler (arg1 : JSVal) (arg2 : JSVal) : Except String PinoCall :=
  match arg1 with
  | .vStr s => if truthy arg2 then .ok (.objAndMsg arg2 s) else .ok (.messageOnly s)
  | .vNull => .error "TypeError: cannot destructure a null value"
  | .vUndefined => .error "TypeError: cannot destructure an undefined value"
  | other =>
    let message := propGet other "message"
    let data := propGet other "data"
    let rest := restProps other ["message", "data"]
    let logObj :=
      if !(isNull data) && typeofIsObject data && !(isArray data)
      then objMerge (ownEnumProps data) rest
      else rest
    if truthy message && isStringV message
    then .ok (.objAndMsg (.vObj logObj) (strVal message))
    else .ok (.objOnly (.vObj logObj))

/-- Base metadata attached to every record (project name and version read
from package.json at startup, kept abstract here). -/
def base (projectName projectVersion : String) : List (String × JSVal) :=
  [("projectName", .vStr projectName), ("projectVersion", .vStr projectVersion)]

/-- Embedding of the mixin function of logger.lib: the requestName read
from the context store is attached when truthy, otherwise nothing. -/
def mixin (got : JSVal) : List (String × JSVal) :=
  if truthy got then [("requestName", got)] else []

/-- Value returned by the context store read: the held string, or undefined
when the active request holds nothing. -/
def ctxGetVal : Option String → JSVal
  | some s => .vStr s
  | none => .vUndefined

/-- One emitted structured record, kept with its components separate:
level, emission-time timestamp, base fields, dynamic context fields from
the mixin, caller-supplied fields, and the optional message. -/
structure Emitted : Type where
  level : String
  time : String
  baseFields : List (String × JSVal)
  dynamicFields : List (String × JSVal)
  callerFields : List (String × JSVal)
  message : Option String

/-- Record composition performed by pino for one call: base fields, mixin
fields, the own enumerable properties of the merge object, and the message
when one was passed. -/
def pinoEmit (level t pn pv : String) (ctxGot : JSVal) (call : PinoCall) : Emitted :=
  { level := level
    time := t
    baseFields := base pn pv
    dynamicFields := mixin ctxGot
    callerFields :=
      match call with
      | .messageOnly _ => []
      | .objAndMsg o _ => ownEnumProps o
      | .objOnly o => ownEnumProps o
    message :=
      match call with
      | .messageOnly m => some m
      | .objAndMsg _ m => some m
      | .objOnly _ => none }

/-- One facade call at a given level: normalize the arguments through
createLogHandler, then emit through pino. -/
def facadeEmit (level t pn pv : String) (ctxGot arg1 arg2 : JSVal) :
    Except String Emitted :=
  (createLogHandler arg1 arg2).map (pinoEmit level t pn pv ctxGot)

/-- Facade info entry point. -/
def loggerInfo : (t pn pv : String) → (ctxGot arg1 arg2 : JSVal) →
    Except String Emitted := facadeEmit "info"

/-- Facade warn entry point. -/
def loggerWarn : (t pn pv : String) → (ctxGot arg1 arg2 : JSVal) →
    Except String Emitted := facadeEmit "warn"

/-- Facade error entry point. -/
def loggerError : (t pn pv : String) → (ctxGot arg1 arg2 : JSVal) →
    Except String Emitted := facadeEmit "error"

/-- Message component of a facade call result (none when the call threw or
carried no message). -/
def recMessage : Except String Emitted → Option String
  | .ok r => r.message
  | .error _ => none

/-- Caller-supplied extra fields of a facade call result. -/
def recCallerFields : Except String Emitted → Option (List (String × JSVal))
  | .ok r => some r.callerFields
  | .error _ => none

/-- Embedding of the facade flush adapter: the promise resolves when the
sink invokes the callback with a falsy error and rejects with the very
error value when the callback argument is truthy. -/
def flushOutcome (cbArg : JSVal) : Except JSVal Unit :=
  if truthy cbArg then .error cbArg else .ok ()

/-! HTTP request logging middleware (expressLogger section of the
middlewares file). -/

/-- Request data the middleware consumes: method, url, base url, and the
resolved route path when the routing layer matched one. -/
structure MwReq : Type where
  method : String
  url : String
  baseUrl : String
  route : Option String

/-- Response data the middleware consumes: status code, status message,
the optional application-set error in locals (name and message of an Error
object, always truthy in JavaScript), the pino-http response time when
recorded, and the raw Content-Length header value. -/
structure MwRes : Type where
  statusCode : Nat
  statusMessage : String
  localsError : Option (String × String)
  responseTime : Option Nat
  contentLength : JSVal

/-- Suppression list of the autoLogging ignore option. -/
def ignoredPaths : List String :=
  ["/api/v1/health/readiness", "/api/v1/health/liveness"]

/-- Embedding of the autoLogging ignore predicate: exact match of the
request url against the suppression list. -/
def autoLoggingIgnore (req : MwReq) : Bool :=
  ignoredPaths.contains req.url

/-- Embedding of customLogLevel: error at status 400 and above, info
below. -/
def customLogLevel (res : MwRes) : String :=
  if 400 ≤ res.statusCode then "error" else "info"

/-- Request name format written to the context store when a route was
resolved. -/
def requestNameOf (method baseUrl routePath : String) : String :=
  method ++ " - " ++ baseUrl ++ routePath

/-- Embedding of customProps: returns the meta fields of the summary
record together with the context-store write it performs.  The route field
is the resolved path or the sentinel; at status 400 and above an error
field is attached, from locals when set, otherwise a fresh Error whose
message is the status message or the fallback literal when that is
empty. -/
def customProps (req : MwReq) (res : MwRes) :
    List (String × JSVal) × Option String :=
  let meta : List (String × JSVal) :=
    [("type", .vStr "http_request"),
     ("route", .vStr (match req.route with | some p => p | none => "N/A"))]
  let ctxWrite : Option String :=
    match req.route with
    | some p => some (requestNameOf req.method req.baseUrl p)
    | none => none
  let meta :=
    if 400 ≤ res.statusCode then
      meta ++ [("error",
        match res.localsError with
        | some e => JSVal.vErr e.1 e.2
        | none =>
            JSVal.vErr "Error"
              (if res.statusMessage.isEmpty then "Request failed"
               else res.statusMessage))]
    else meta
  (meta, ctxWrite)

/-- Embedding of customSuccessMessage: method, url, status code, elapsed
time with a 0ms fallback when the response time is absent or zero, and the
Content-Length header with a 0b fallback when that value is falsy. -/
def customSuccessMessage (req : MwReq) (res : MwRes) : String :=
  let time :=
    match res.responseTime with
    | some rt => if rt != 0 then toString rt ++ "ms" else "0ms"
    | none => "0ms"
  let size :=
    if truthy res.contentLength then jsToString res.contentLength else "0b"
  req.method ++ " " ++ req.url ++ " " ++ toString res.statusCode ++ " " ++
    time ++ " - " ++ size

/-- Embedding of customErrorMessage, textually identical to the success
message builder in the source. -/
def customErrorMessage (req : MwReq) (res : MwRes) : String :=
  let time :=
    match res.responseTime with
    | some rt => if rt != 0 then toString rt ++ "ms" else "0ms"
    | none => "0ms"
  let size :=
    if truthy res.contentLength then jsToString res.contentLength else "0b"
  req.method ++ " " ++ req.url ++ " " ++ toString res.statusCode ++ " " ++
    time ++ " - " ++ size

/-- Summary record the middleware emits for one request. -/
structure MwRecord : Type where
  level : String
  fields : List (String × JSVal)
  message : String

/-- Observable outcome of running the middleware on one request and
response pair: the summary record when one is emitted, the context-store
write when one is performed, and whether control passed onward. -/
structure MwOutcome : Type where
  record : Option MwRecord
  ctxWrite : Option String
  nextCalled : Bool

/-- Middleware behaviour per request, following pino-http: when the ignore
predicate matches, no record is produced, customProps never runs (so no
context write), and control passes on; otherwise one record is emitted at
the level of customLogLevel with the customProps fields and the error or
success message according to the status code, and the customProps context
write takes effect. -/
def expressLoggerRun (req : MwReq) (res : MwRes) : MwOutcome :=
  if autoLoggingIgnore req then
    { record := none, ctxWrite := none, nextCalled := true }
  else
    let pc := customProps req res
    let msg :=
      if 400 ≤ res.statusCode then customErrorMessage req res
      else customSuccessMessage req res
    { record := some { level := customLogLevel res, fields := pc.1, message := msg }
      ctxWrite := pc.2
      nextCalled := true }

/-! Request context store.
Modelled from the spec: the Request Context Store is provided by the
external express-http-context package (installed in app.ts, not under
src/), so its continuation-scoped semantics is modelled from the spec text
of 4.1: a per-logical-request slot, written by set and read by get, such
that interleaved requests never observe each other and a value set early
in a request remains visible to its later continuations.  A trace is the
sequence of store writes performed by the interleaved requests, each
tagged with the logical request that performed it. -/

/-- One store operation in an interleaved execution trace: request r sets
its requestName slot to v. -/
inductive CtxOp : Type where
  | set : Nat → String → CtxOp

/-- Effect of one store operation on the per-request state. -/
def ctxStep (st : Nat → Option String) : CtxOp → (Nat → Option String)
  | .set r v => fun q => if q = r then some v else st q

/-- State of the store after running a trace from a starting state. -/
def ctxRun (st : Nat → Option String) (tr : List CtxOp) : Nat → Option String :=
  tr.foldl ctxStep st

/-- Initially no request holds a value. -/
def ctxEmpty : Nat → Option String := fun _ => none

/-- Value the get operation of request r observes after a trace. -/
def ctxGetAfter (tr : List CtxOp) (r : Nat) : Option String :=
  ctxRun ctxEmpty tr r

/-- Shape of the summary message the middleware builds: method, url,
status code, elapsed time and size separated as in the source template
literal. -/
def summaryTemplate (method url : String) (status : Nat) (tm size : String) :
    String :=
  method ++ " " ++ url ++ " " ++ toString status ++ " " ++ tm ++ " - " ++ size

/-- Observation of a handler result: the message of a pair-shaped pino
call (merge object plus message), none otherwise. -/
def callObjAndMsg : Except String PinoCall → Option String
  | .ok (.objAndMsg _ m) => some m
  | _ => none

/-- Observation of a handler result: whether the pino call carries a merge
object alone, with no message. -/
def callIsObjOnly : Except String PinoCall → Bool
  | .ok (.objOnly _) => true
  | _ => false

/-! Helper lemmas about the context store trace semantics. -/

/-- Running a trace from two states that agree at a request id yields
states that agree at that id. -/
theorem ctxRun_congrAt : ∀ (tr : List CtxOp) (st st₂ : Nat → Option String)
    (b : Nat), st b = st₂ b → ctxRun st tr b = ctxRun st₂ tr b
  | [], _, _, _, h => h
  | .set r v :: rest, st, st₂, b, h => by
      show ctxRun (ctxStep st (.set r v)) rest b =
        ctxRun (ctxStep st₂ (.set r v)) rest b
      exact ctxRun_congrAt rest _ _ b
        (by by_cases hb : b = r <;> simp [ctxStep, hb, h])

/-- A trace containing no write by request b leaves the slot of b
unchanged. -/
theorem ctxRun_noSet : ∀ (tr : List CtxOp) (st : Nat → Option String)
    (b : Nat), (∀ v, CtxOp.set b v ∉ tr) → ctxRun st tr b = st b
  | [], _, _, _ => rfl
  | .set r v :: rest, st, b, h => by
      have hrest : ∀ u, CtxOp.set b u ∉ rest :=
        fun u hu => h u (List.mem_cons_of_mem _ hu)
      have hbr : b ≠ r := fun hb => h v (by rw [hb]; exact List.mem_cons_self _ _)
      show ctxRun (ctxStep st (.set r v)) rest b = st b
      rw [ctxRun_noSet rest _ b hrest]
      simp [ctxStep, hbr]

/-- C1: per-request context isolation.  In any interleaved trace, a
requestName written while handling request a is never observed by request
b (removing the write does not change what b reads), and a value written
by request b stays visible to every later continuation of b as long as b
itself writes nothing further. -/
theorem c1_request_context_isolation (pre mid : List CtxOp) (a b : Nat)
    (v : String) (hab : a ≠ b) :
    ctxGetAfter (pre ++ CtxOp.set a v :: mid) b = ctxGetAfter (pre ++ mid) b ∧
    ((∀ u, CtxOp.set b u ∉ mid) →
      ctxGetAfter (pre ++ CtxOp.set b v :: mid) b = some v) := by
  constructor
  · show ctxRun ctxEmpty (pre ++ .set a v :: mid) b = ctxRun ctxEmpty (pre ++ mid) b
    unfold ctxRun
    rw [List.foldl_append, List.foldl_append, List.foldl_cons]
    have hba : ¬ b = a := fun h => hab h.symm
    exact ctxRun_congrAt mid _ _ b (by simp [ctxStep, hba])
  · intro hmid
    show ctxRun ctxEmpty (pre ++ .set b v :: mid) b = some v
    unfold ctxRun
    rw [List.foldl_append, List.foldl_cons]
    rw [show List.foldl ctxStep (ctxStep (List.foldl ctxStep ctxEmpty pre) (.set b v)) mid =
      ctxRun (ctxStep (List.foldl ctxStep ctxEmpty pre) (.set b v)) mid from rfl]
    rw [ctxRun_noSet mid _ b hmid]
    simp [ctxStep]

/-- Witness for C1 at a concrete interleaving: the write of request 0 does
not change what request 1 reads, and the value request 1 wrote stays
visible to it. -/
theorem c1_request_context_isolation_witness :
    ctxGetAfter [CtxOp.set 0 "A", CtxOp.set 1 "B"] 1 =
      ctxGetAfter [CtxOp.set 1 "B"] 1 ∧
    ctxGetAfter [CtxOp.set 1 "A"] 1 = some "A" :=
  ⟨(c1_request_context_isolation [] [CtxOp.set 1 "B"] 0 1 "A" (by decide)).1,
   (c1_request_context_isolation [] [] 0 1 "A" (by decide)).2
     (fun u hu => by simp at hu)⟩

/-- C2 counterexample: the facade handler applied to a null or undefined
primary argument does not return normally; the object destructuring step
raises a TypeError, modelled by the error result. -/
theorem c2_null_input_throws_cex :
    (createLogHandler JSVal.vNull JSVal.vUndefined).isOk = false ∧
    (createLogHandler JSVal.vUndefined JSVal.vUndefined).isOk = false :=
  ⟨rfl, rfl⟩

/-- C2 (amended): the facade handler returns normally on every input whose
primary argument is not null and not undefined — strings, numbers,
booleans, arrays, plain objects and errors all coerce best-effort without
throwing. -/
theorem c2_facade_no_throw_amended (arg1 arg2 : JSVal)
    (h1 : arg1 ≠ JSVal.vNull) (h2 : arg1 ≠ JSVal.vUndefined) :
    (createLogHandler arg1 arg2).isOk = true := by
  cases arg1 with
  | vStr s => simp only [createLogHandler]; split <;> rfl
  | vNum n => simp only [createLogHandler]; split <;> rfl
  | vBool b => simp only [createLogHandler]; split <;> rfl
  | vNull => exact absurd rfl h1
  | vUndefined => exact absurd rfl h2
  | vArr xs => simp only [createLogHandler]; split <;> rfl
  | vObj f => simp only [createLogHandler]; split <;> rfl
  | vErr name msg => simp only [createLogHandler]; split <;> rfl

/-- Witness for C2 (amended) at a number input, which is neither a string
nor a plain object. -/
theorem c2_facade_no_throw_amended_witness :
    JSVal.vNum 42 ≠ JSVal.vNull ∧ JSVal.vNum 42 ≠ JSVal.vUndefined ∧
    (createLogHandler (JSVal.vNum 42) JSVal.vUndefined).isOk = true :=
  ⟨fun h => JSVal.noConfusion h, fun h => JSVal.noConfusion h,
   c2_facade_no_throw_amended (JSVal.vNum 42) JSVal.vUndefined
     (fun h => JSVal.noConfusion h) (fun h => JSVal.noConfusion h)⟩

/-- Unfolding of the object branch of createLogHandler on a plain object
first argument, with destructuring expressed through the object field
operations. -/
theorem createLogHandler_vObj (f : List (String × JSVal)) (arg2 : JSVal) :
    createLogHandler (JSVal.vObj f) arg2 =
      (let message := objGet f "message"
       let data := objGet f "data"
       let rest := objRemove f ["message", "data"]
       let logObj :=
         if !(isNull data) && typeofIsObject data && !(isArray data)
         then objMerge (ownEnumProps data) rest
         else rest
       if truthy message && isStringV message
       then .ok (.objAndMsg (.vObj logObj) (strVal message))
       else .ok (.objOnly (.vObj logObj))) := rfl

/-- C3: for object inputs, when the data field is a plain non-array
object the emitted extra fields are the spread union of data and the
remaining keys, remaining keys winning on collision; when data is
undefined, null, an array, or absent, the extra fields are the remaining
keys alone. -/
theorem c3_data_merge_fields (level t pn pv : String) (ctxGot : JSVal)
    (f : List (String × JSVal)) (arg2 : JSVal) :
    (∀ d, objGet f "data" = JSVal.vObj d →
      recCallerFields (facadeEmit level t pn pv ctxGot (JSVal.vObj f) arg2) =
        some (objMerge d (objRemove f ["message", "data"]))) ∧
    (objGet f "data" = JSVal.vUndefined ∨ objGet f "data" = JSVal.vNull ∨
        (∃ xs, objGet f "data" = JSVal.vArr xs) →
      recCallerFields (facadeEmit level t pn pv ctxGot (JSVal.vObj f) arg2) =
        some (objRemove f ["message", "data"])) := by
  constructor
  · intro d hd
    simp only [facadeEmit, createLogHandler_vObj, hd, isNull, typeofIsObject,
      isArray, ownEnumProps, Bool.not_false, Bool.not_true, Bool.and_self,
      Bool.true_and, Bool.and_true, if_true]
    split <;> simp [recCallerFields, pinoEmit, ownEnumProps, Except.map]
  · intro h
    rcases h with h | h | ⟨xs, h⟩ <;>
      · simp only [facadeEmit, createLogHandler_vObj, h, isNull, typeofIsObject,
          isArray, Bool.not_false, Bool.not_true, Bool.false_and, Bool.and_false,
          Bool.true_and, Bool.and_true, if_false]
        split <;> simp [recCallerFields, pinoEmit, ownEnumProps, Except.map]

/-- Witness for C3 at the documented scenario (message, data and an extra
key) and at an input whose data key is undefined. -/
theorem c3_data_merge_fields_witness :
    objGet [("message", JSVal.vStr "Order created"),
        ("data", JSVal.vObj [("orderId", JSVal.vStr "ORD-123"),
          ("total", JSVal.vNum 150)]),
        ("userId", JSVal.vNum 456)] "data" =
      JSVal.vObj [("orderId", JSVal.vStr "ORD-123"), ("total", JSVal.vNum 150)] ∧
    recCallerFields (facadeEmit "info" "T" "expressure" "1.0.0" JSVal.vUndefined
      (JSVal.vObj [("message", JSVal.vStr "Order created"),
        ("data", JSVal.vObj [("orderId", JSVal.vStr "ORD-123"),
          ("total", JSVal.vNum 150)]),
        ("userId", JSVal.vNum 456)]) JSVal.vUndefined) =
      some [("orderId", JSVal.vStr "ORD-123"), ("total", JSVal.vNum 150),
        ("userId", JSVal.vNum 456)] ∧
    objGet [("message", JSVal.vStr "Test"), ("data", JSVal.vUndefined),
        ("extra", JSVal.vStr "x")] "data" = JSVal.vUndefined ∧
    recCallerFields (facadeEmit "info" "T" "expressure" "1.0.0" JSVal.vUndefined
      (JSVal.vObj [("message", JSVal.vStr "Test"), ("data", JSVal.vUndefined),
        ("extra", JSVal.vStr "x")]) JSVal.vUndefined) =
      some [("extra", JSVal.vStr "x")] := by
  refine ⟨rfl, ?_, rfl, ?_⟩
  · exact (c3_data_merge_fields "info" "T" "expressure" "1.0.0" JSVal.vUndefined
      [("message", JSVal.vStr "Order created"),
        ("data", JSVal.vObj [("orderId", JSVal.vStr "ORD-123"),
          ("total", JSVal.vNum 150)]),
        ("userId", JSVal.vNum 456)] JSVal.vUndefined).1
      [("orderId", JSVal.vStr "ORD-123"), ("total", JSVal.vNum 150)] rfl
  · exact (c3_data_merge_fields "info" "T" "expressure" "1.0.0" JSVal.vUndefined
      [("message", JSVal.vStr "Test"), ("data", JSVal.vUndefined),
        ("extra", JSVal.vStr "x")] JSVal.vUndefined).2 (Or.inl rfl)

/-- C4 counterexample: a second argument is given (the number 0, a
possible error value for the error level) yet the underlying logger is
called with the message alone, not with the pair. -/
theorem c4_falsy_second_arg_cex :
    createLogHandler (JSVal.vStr "request saved") (JSVal.vNum 0) =
      .ok (.messageOnly "request saved") ∧
    (Except.ok (PinoCall.messageOnly "request saved") : Except String PinoCall) ≠
      .ok (.objAndMsg (JSVal.vNum 0) "request saved") := by
  refine ⟨rfl, ?_⟩
  intro h
  injection h with h2
  exact PinoCall.noConfusion h2

/-- C4 (amended): for a string primary argument, with no second argument
the underlying logger receives the message alone and the record carries no
extra fields and the input as its message; a truthy second argument is
passed as the pair of second argument and message; a falsy second
argument is treated as absent and the message is logged alone. -/
theorem c4_string_form_amended (s : String) (arg2 : JSVal)
    (level t pn pv : String) (ctxGot : JSVal) :
    (arg2 = JSVal.vUndefined →
      createLogHandler (JSVal.vStr s) arg2 = .ok (.messageOnly s) ∧
      recCallerFields (facadeEmit level t pn pv ctxGot (JSVal.vStr s) arg2) =
        some [] ∧
      recMessage (facadeEmit level t pn pv ctxGot (JSVal.vStr s) arg2) =
        some s) ∧
    (truthy arg2 = true →
      createLogHandler (JSVal.vStr s) arg2 = .ok (.objAndMsg arg2 s)) ∧
    (truthy arg2 = false →
      createLogHandler (JSVal.vStr s) arg2 = .ok (.messageOnly s)) := by
  refine ⟨?_, ?_, ?_⟩
  · rintro rfl
    exact ⟨rfl, rfl, rfl⟩
  · intro h; simp [createLogHandler, h]
  · intro h; simp [createLogHandler, h]

/-- Witness for C4 (amended): a bare string call and a call with a
metadata object. -/
theorem c4_string_form_amended_witness :
    createLogHandler (JSVal.vStr "hello") JSVal.vUndefined =
      .ok (.messageOnly "hello") ∧
    recCallerFields (facadeEmit "info" "T" "p" "v" JSVal.vUndefined
      (JSVal.vStr "hello") JSVal.vUndefined) = some [] ∧
    recMessage (facadeEmit "info" "T" "p" "v" JSVal.vUndefined
      (JSVal.vStr "hello") JSVal.vUndefined) = some "hello" ∧
    createLogHandler (JSVal.vStr "hello")
        (JSVal.vObj [("userId", JSVal.vNum 1)]) =
      .ok (.objAndMsg (JSVal.vObj [("userId", JSVal.vNum 1)]) "hello") := by
  have h1 := c4_string_form_amended "hello" JSVal.vUndefined "info" "T" "p" "v"
    JSVal.vUndefined
  have h2 := c4_string_form_amended "hello"
    (JSVal.vObj [("userId", JSVal.vNum 1)]) "info" "T" "p" "v" JSVal.vUndefined
  exact ⟨(h1.1 rfl).1, (h1.1 rfl).2.1, (h1.1 rfl).2.2, h2.2.1 rfl⟩

/-- C8: requests whose url exactly matches a health-check suppression path
produce no summary record and no context-store write, and control passes
onward. -/
theorem c8_health_check_suppression (req : MwReq) (res : MwRes)
    (h : req.url = "/api/v1/health/liveness" ∨
      req.url = "/api/v1/health/readiness") :
    expressLoggerRun req res =
      { record := none, ctxWrite := none, nextCalled := true } := by
  have hig : autoLoggingIgnore req = true := by
    rcases h with h | h <;> simp [autoLoggingIgnore, ignoredPaths, h]
  simp [expressLoggerRun, hig]

/-- Witness for C8 at the liveness path. -/
theorem c8_health_check_suppression_witness :
    expressLoggerRun ⟨"GET", "/api/v1/health/liveness", "", none⟩
        ⟨200, "OK", none, some 1, JSVal.vStr "10"⟩ =
      { record := none, ctxWrite := none, nextCalled := true } :=
  c8_health_check_suppression _ _ (Or.inl rfl)

/-- C10: the flush adapter resolves exactly when the sink invokes its
callback with no error, and rejects with the very error value the sink
supplied when it signals failure. -/
theorem c10_flush_outcome (cbArg : JSVal) :
    (truthy cbArg = false → flushOutcome cbArg = .ok ()) ∧
    (truthy cbArg = true → flushOutcome cbArg = .error cbArg) := by
  constructor <;> intro h <;> simp [flushOutcome, h]

/-- Witness for C10: success resolves, a concrete sink error is rejected
unchanged. -/
theorem c10_flush_outcome_witness :
    truthy JSVal.vUndefined = false ∧
    flushOutcome JSVal.vUndefined = .ok () ∧
    truthy (JSVal.vErr "Error" "Disk full") = true ∧
    flushOutcome (JSVal.vErr "Error" "Disk full") =
      .error (JSVal.vErr "Error" "Disk full") :=
  ⟨rfl, (c10_flush_outcome JSVal.vUndefined).1 rfl, rfl,
   (c10_flush_outcome (JSVal.vErr "Error" "Disk full")).2 rfl⟩

/-- C5 counterexample: an object-form input containing a string message
field (the empty string) whose emitted record nevertheless has no message
entry, because the handler tests the message for truthiness. -/
theorem c5_empty_message_cex :
    objGet [("message", JSVal.vStr "")] "message" = JSVal.vStr "" ∧
    recMessage (facadeEmit "info" "T" "p" "v" JSVal.vUndefined
      (JSVal.vObj [("message", JSVal.vStr "")]) JSVal.vUndefined) = none :=
  ⟨rfl, rfl⟩

/-- C5 (amended): a record carries a message entry exactly when the caller
supplied one as the string-form primary argument or as a non-empty string
message field of an object-form input; the extracted message rides on a
pair-shaped call next to the merged fields, and without a usable message
the merged fields are emitted alone. -/
theorem c5_message_presence_amended (level t pn pv : String)
    (ctxGot : JSVal) (s : String) (f : List (String × JSVal)) (arg2 : JSVal) :
    recMessage (facadeEmit level t pn pv ctxGot (JSVal.vStr s) arg2) = some s ∧
    recMessage (facadeEmit level t pn pv ctxGot (JSVal.vObj f) arg2) =
      (match objGet f "message" with
       | JSVal.vStr m => if m.isEmpty then none else some m
       | _ => none) ∧
    (∀ m, objGet f "message" = JSVal.vStr m → m.isEmpty = false →
      callObjAndMsg (createLogHandler (JSVal.vObj f) arg2) = some m) ∧
    ((match objGet f "message" with
      | JSVal.vStr m => m.isEmpty
      | _ => true) = true →
      callIsObjOnly (createLogHandler (JSVal.vObj f) arg2) = true) := by
  refine ⟨?_, ?_, ?_, ?_⟩
  · simp only [facadeEmit, createLogHandler]
    split <;> rfl
  · simp only [facadeEmit, createLogHandler_vObj]
    cases hm : objGet f "message" with
    | vStr m =>
        cases he : m.isEmpty <;>
          simp [he, truthy, isStringV, strVal, recMessage, pinoEmit, Except.map]
    | vNum n => simp [truthy, isStringV, recMessage, pinoEmit, Except.map]
    | vBool b => simp [truthy, isStringV, recMessage, pinoEmit, Except.map]
    | vNull => simp [truthy, isStringV, recMessage, pinoEmit, Except.map]
    | vUndefined => simp [truthy, isStringV, recMessage, pinoEmit, Except.map]
    | vArr xs => simp [truthy, isStringV, recMessage, pinoEmit, Except.map]
    | vObj g => simp [truthy, isStringV, recMessage, pinoEmit, Except.map]
    | vErr name msg => simp [truthy, isStringV, recMessage, pinoEmit, Except.map]
  · intro m hm hne
    simp [createLogHandler_vObj, hm, hne, truthy, isStringV, strVal, callObjAndMsg]
  · intro h
    cases hm : objGet f "message" with
    | vStr m =>
        rw [hm] at h
        simp only [] at h
        simp [createLogHandler_vObj, hm, h, truthy, isStringV, callIsObjOnly]
    | vNum n => simp [createLogHandler_vObj, hm, truthy, isStringV, callIsObjOnly]
    | vBool b => simp [createLogHandler_vObj, hm, truthy, isStringV, callIsObjOnly]
    | vNull => simp [createLogHandler_vObj, hm, truthy, isStringV, callIsObjOnly]
    | vUndefined => simp [createLogHandler_vObj, hm, truthy, isStringV, callIsObjOnly]
    | vArr xs => simp [createLogHandler_vObj, hm, truthy, isStringV, callIsObjOnly]
    | vObj g => simp [createLogHandler_vObj, hm, truthy, isStringV, callIsObjOnly]
    | vErr name msg =>
        simp [createLogHandler_vObj, hm, truthy, isStringV, callIsObjOnly]

/-- Witness for C5 (amended): a string call, an object call with a
non-empty message and one with no message. -/
theorem c5_message_presence_amended_witness :
    recMessage (facadeEmit "info" "T" "p" "v" JSVal.vUndefined
      (JSVal.vStr "Operation started") JSVal.vUndefined) =
      some "Operation started" ∧
    recMessage (facadeEmit "info" "T" "p" "v" JSVal.vUndefined
      (JSVal.vObj [("message", JSVal.vStr "Hello"),
        ("something", JSVal.vStr "cool")]) JSVal.vUndefined) = some "Hello" ∧
    callObjAndMsg (createLogHandler
      (JSVal.vObj [("message", JSVal.vStr "Hello"),
        ("something", JSVal.vStr "cool")]) JSVal.vUndefined) = some "Hello" ∧
    callIsObjOnly (createLogHandler
      (JSVal.vObj [("event", JSVal.vStr "click")]) JSVal.vUndefined) = true := by
  have h1 := c5_message_presence_amended "info" "T" "p" "v" JSVal.vUndefined
    "Operation started" [("message", JSVal.vStr "Hello"),
      ("something", JSVal.vStr "cool")] JSVal.vUndefined
  have h2 := c5_message_presence_amended "info" "T" "p" "v" JSVal.vUndefined
    "Operation started" [("event", JSVal.vStr "click")] JSVal.vUndefined
  exact ⟨h1.1, h1.2.1, h1.2.2.1 "Hello" rfl rfl, h2.2.2.2 rfl⟩

/-- C6: the dynamic context fields of an emitted record are the singleton
requestName field when the store holds a requestName value for the active
request at emission time (the values the middleware registers always have
the method, separator, path shape, hence are non-empty), and are empty
when the store holds none. -/
theorem c6_request_name_dynamic_fields (level t pn pv : String)
    (call : PinoCall) (held : Option String)
    (h : ∀ s, held = some s → ∃ mth b p, s = requestNameOf mth b p) :
    (pinoEmit level t pn pv (ctxGetVal held) call).dynamicFields =
      (match held with
       | some s => [("requestName", JSVal.vStr s)]
       | none => []) := by
  cases held with
  | none => rfl
  | some s =>
      obtain ⟨mth, b, p, rfl⟩ := h s rfl
      have hne : requestNameOf mth b p ≠ "" := by
        intro he
        have hl := congrArg String.length he
        rw [String.length_empty] at hl
        simp only [requestNameOf, String.length_append] at hl
        rw [show (" - ").length = 3 from rfl] at hl
        omega
      have hie : (requestNameOf mth b p).isEmpty = false := by
        cases hi : (requestNameOf mth b p).isEmpty
        · rfl
        · exact absurd ((String.isEmpty_iff _).mp hi) hne
      simp [pinoEmit, mixin, ctxGetVal, truthy, hie]

/-- Witness for C6: a held middleware-format requestName appears in the
dynamic fields, an empty store yields no dynamic fields. -/
theorem c6_request_name_dynamic_fields_witness :
    (pinoEmit "info" "T" "p" "v" (ctxGetVal (some "GET - /api/v1/test"))
      (.messageOnly "m")).dynamicFields =
      [("requestName", JSVal.vStr "GET - /api/v1/test")] ∧
    (pinoEmit "info" "T" "p" "v" (ctxGetVal none)
      (.messageOnly "m")).dynamicFields = [] := by
  constructor
  · exact c6_request_name_dynamic_fields "info" "T" "p" "v"
      (.messageOnly "m") (some "GET - /api/v1/test")
      (fun s hs => ⟨"GET", "/api/v1", "/test", by cases hs; rfl⟩)
  · exact c6_request_name_dynamic_fields "info" "T" "p" "v"
      (.messageOnly "m") none (fun s hs => Option.noConfusion hs)

/-- C7: a summary record is emitted at level error with an error field
exactly for final status 400 and above — the error taken from the locals
slot when set, otherwise a fresh Error carrying the status text or the
fallback literal when that is empty — and at level info with no error
field below 400; non-suppressed requests emit exactly this record. -/
theorem c7_error_level_and_field (req : MwReq) (res : MwRes) :
    (400 ≤ res.statusCode →
      customLogLevel res = "error" ∧
      objGet (customProps req res).1 "error" =
        (match res.localsError with
         | some e => JSVal.vErr e.1 e.2
         | none =>
             JSVal.vErr "Error"
               (if res.statusMessage.isEmpty then "Request failed"
                else res.statusMessage))) ∧
    (res.statusCode < 400 →
      customLogLevel res = "info" ∧
      objHasKey (customProps req res).1 "error" = false) ∧
    (autoLoggingIgnore req = false →
      (expressLoggerRun req res).record =
        some { level := customLogLevel res
               fields := (customProps req res).1
               message :=
                 if 400 ≤ res.statusCode then customErrorMessage req res
                 else customSuccessMessage req res }) := by
  refine ⟨?_, ?_, ?_⟩
  · intro h400
    constructor
    · simp [customLogLevel, h400]
    · simp [customProps, h400, objGet]
  · intro hlt
    have hn : ¬ 400 ≤ res.statusCode := Nat.not_le.mpr hlt
    constructor
    · simp [customLogLevel, hn]
    · simp [customProps, hn, objHasKey]
  · intro hns
    simp [expressLoggerRun, hns]

/-- Witness for C7: a failed request with empty status text gets the
fallback error message, a failed request keeps the level error, a
successful request gets level info and no error field, and the emitted
record links to these functions. -/
theorem c7_error_level_and_field_witness :
    customLogLevel ⟨500, "", none, some 5, JSVal.vStr "10"⟩ = "error" ∧
    objGet (customProps ⟨"GET", "/x", "", none⟩
        ⟨500, "", none, some 5, JSVal.vStr "10"⟩).1 "error" =
      JSVal.vErr "Error" "Request failed" ∧
    customLogLevel ⟨200, "OK", none, some 5, JSVal.vStr "10"⟩ = "info" ∧
    objHasKey (customProps ⟨"GET", "/x", "", none⟩
        ⟨200, "OK", none, some 5, JSVal.vStr "10"⟩).1 "error" = false ∧
    (expressLoggerRun ⟨"GET", "/x", "", none⟩
        ⟨200, "OK", none, some 5, JSVal.vStr "10"⟩).record =
      some { level := customLogLevel ⟨200, "OK", none, some 5, JSVal.vStr "10"⟩
             fields := (customProps ⟨"GET", "/x", "", none⟩
               ⟨200, "OK", none, some 5, JSVal.vStr "10"⟩).1
             message := "GET /x 200 5ms - 10" } := by
  have herr := c7_error_level_and_field ⟨"GET", "/x", "", none⟩
    ⟨500, "", none, some 5, JSVal.vStr "10"⟩
  have hok := c7_error_level_and_field ⟨"GET", "/x", "", none⟩
    ⟨200, "OK", none, some 5, JSVal.vStr "10"⟩
  exact ⟨(herr.1 (by decide)).1, (herr.1 (by decide)).2,
    (hok.2.1 (by decide)).1, (hok.2.1 (by decide)).2, hok.2.2 rfl⟩

/-- C9: every summary message has the method, url, status, elapsed and
size template shape; the elapsed part is always a millisecond rendering,
is 0ms when the response time is absent or zero, and is the recorded
number otherwise; the size part is the literal 0b when the Content-Length
value is null or undefined, is the header rendering whenever the value is
truthy, and in particular the string 0 passes through unchanged. -/
theorem c9_summary_message (req : MwReq) (res : MwRes) :
    customErrorMessage req res = customSuccessMessage req res ∧
    ∃ tm size,
      customSuccessMessage req res =
        summaryTemplate req.method req.url res.statusCode tm size ∧
      (∃ n : Nat, tm = toString n ++ "ms") ∧
      (res.responseTime = none ∨ res.responseTime = some 0 → tm = "0ms") ∧
      (∀ rt, res.responseTime = some rt → rt ≠ 0 → tm = toString rt ++ "ms") ∧
      (res.contentLength = JSVal.vNull ∨ res.contentLength = JSVal.vUndefined →
        size = "0b") ∧
      (truthy res.contentLength = true → size = jsToString res.contentLength) ∧
      (res.contentLength = JSVal.vStr "0" → size = "0") := by
  refine ⟨rfl, (match res.responseTime with
      | some rt => if rt != 0 then toString rt ++ "ms" else "0ms"
      | none => "0ms"),
    (if truthy res.contentLength then jsToString res.contentLength else "0b"),
    rfl, ?_, ?_, ?_, ?_, ?_, ?_⟩
  · cases hrt : res.responseTime with
    | none => exact ⟨0, rfl⟩
    | some rt =>
        cases hb : (rt != 0)
        · simp only [hb, Bool.false_eq_true, if_false]
          exact ⟨0, rfl⟩
        · simp only [hb, if_true]
          exact ⟨rt, rfl⟩
  · intro h
    rcases h with h | h <;> simp [h]
  · intro rt hrt hne
    simp [hrt, hne]
  · intro h
    rcases h with h | h <;> simp [h, truthy]
  · intro h
    simp [h]
  · intro h
    rw [h]
    rfl

/-- Witness for C9 at the documented scenario and the two fallback
scenarios. -/
theorem c9_summary_message_witness :
    customSuccessMessage ⟨"GET", "/api/v1/test", "/api/v1", some "/test"⟩
        ⟨200, "OK", none, some 123, JSVal.vNum 456⟩ =
      summaryTemplate "GET" "/api/v1/test" 200 "123ms" "456" ∧
    customSuccessMessage ⟨"GET", "/api/v1/test", "/api/v1", some "/test"⟩
        ⟨200, "OK", none, none, JSVal.vNull⟩ =
      summaryTemplate "GET" "/api/v1/test" 200 "0ms" "0b" ∧
    customSuccessMessage ⟨"GET", "/api/v1/test", "/api/v1", some "/test"⟩
        ⟨200, "OK", none, some 5, JSVal.vStr "0"⟩ =
      summaryTemplate "GET" "/api/v1/test" 200 "5ms" "0" := by
  refine ⟨?_, ?_, ?_⟩
  · obtain ⟨tm, size, heq, _, _, h4, _, h6, _⟩ :=
      (c9_summary_message ⟨"GET", "/api/v1/test", "/api/v1", some "/test"⟩
        ⟨200, "OK", none, some 123, JSVal.vNum 456⟩).2
    rw [heq, h4 123 rfl (by decide), h6 rfl]
    rfl
  · obtain ⟨tm, size, heq, _, h3, _, h5, _, _⟩ :=
      (c9_summary_message ⟨"GET", "/api/v1/test", "/api/v1", some "/test"⟩
        ⟨200, "OK", none, none, JSVal.vNull⟩).2
    rw [heq, h3 (Or.inl rfl), h5 (Or.inl rfl)]
  · obtain ⟨tm, size, heq, _, _, h4, _, _, h7⟩ :=
      (c9_summary_message ⟨"GET", "/api/v1/test", "/api/v1", some "/test"⟩
        ⟨200, "OK", none, some 5, JSVal.vStr "0"⟩).2
    rw [heq, h4 5 rfl (by decide), h7 rfl]
    rfl

end Expressure
